import Mathlib

/-!
Verification of src/App.tsx of EvolvEdge-AI: the mock-interview session
state machine of MockInterviewSessionScreen, the translation cache and the
voice registry of SettingsProvider, and the speak-on-entry effect.

Embedding conventions. React state updates performed synchronously inside
one handler are applied atomically. Each asynchronous collaborator call is
split into the synchronous part before the await (a request step) and the
continuation after the await (a response event); the machine records the
call in flight. JavaScript truthiness tests on strings and on nullable
strings are modelled explicitly: null, undefined and the empty string are
falsy. JavaScript trim and startsWith are modelled by jsTrim and
jsStartsWith below.
-/

/-- The InterviewState union type of MockInterviewSessionScreen. -/
inductive Phase where
  | STARTING
  | AWAITING_ANSWER
  | LISTENING
  | PROCESSING
  | DISPLAYING_FEEDBACK
  | PROCESSING_SUMMARY
  | COMPLETED
  deriving DecidableEq

/-- One completed question/answer/feedback triple (InterviewTurn of types.ts). -/
structure InterviewTurn where
  question : String
  answer : String
  feedback : String
  deriving DecidableEq

/-- The React state of MockInterviewSessionScreen driving the session. -/
structure SessionState where
  interviewState : Phase
  currentQuestion : String
  stagedNextQuestion : Option String
  userTranscript : String
  feedback : String
  interviewHistory : List InterviewTurn
  summary : String
  deriving DecidableEq

/-- Response of getInterviewFeedbackAndNextQuestion: feedback text plus an
optional next question. -/
structure FeedbackResponse where
  feedback : String
  nextQuestion : Option String
  deriving DecidableEq

/-- text.replace with a global asterisk pattern: removes every asterisk. -/
def stripEmphasis (s : String) : String :=
  String.mk (s.data.filter (fun c => c != '*'))

/-- JavaScript String.prototype.trim: drop leading and trailing whitespace.
Defined over the character list so that it evaluates in the kernel; the
whitespace class is approximated by Char.isWhitespace. -/
def jsTrim (s : String) : String :=
  String.mk (((s.data.dropWhile Char.isWhitespace).reverse.dropWhile
    Char.isWhitespace).reverse)

/-- JavaScript String.prototype.startsWith, over character lists so that it
evaluates in the kernel. -/
def jsStartsWith (s p : String) : Bool :=
  p.data.isPrefixOf s.data

/-- cleanedNextQuestion of handleAnswerSubmission: nextQuestion is tested
for JavaScript truthiness, so undefined and the empty string both give
null; a truthy next question has its asterisks stripped. -/
def cleanedNext (nextQuestion : Option String) : Option String :=
  match nextQuestion with
  | some nq => if nq = "" then none else some (stripEmphasis nq)
  | none => none

/-- The part of handleAnswerSubmission before the await of
getInterviewFeedbackAndNextQuestion: a blank transcript returns to
AWAITING_ANSWER and issues no call; otherwise the phase becomes PROCESSING
and a feedback call with (currentQuestion, transcript) is issued. -/
def handleAnswerSubmissionStart (s : SessionState) (transcript : String) :
    SessionState × Option (String × String) :=
  if jsTrim transcript = "" then
    ({ s with interviewState := Phase.AWAITING_ANSWER }, none)
  else
    ({ s with interviewState := Phase.PROCESSING }, some (s.currentQuestion, transcript))

/-- The part of handleAnswerSubmission after the response arrives: strip
asterisks, show the feedback, append the turn, stage the cleaned next
question, move to DISPLAYING_FEEDBACK. question and transcript are the
values captured by the closure when the call was issued. -/
def handleAnswerSubmissionResume (s : SessionState) (question transcript : String)
    (resp : FeedbackResponse) : SessionState :=
  let cleanedFeedback := stripEmphasis resp.feedback
  { s with
    feedback := cleanedFeedback,
    interviewHistory := s.interviewHistory ++
      [{ question := question, answer := transcript, feedback := cleanedFeedback }],
    stagedNextQuestion := cleanedNext resp.nextQuestion,
    interviewState := Phase.DISPLAYING_FEEDBACK }

/-- handleAnswerSubmission as one function: the final state plus the list
of feedback collaborator calls made. -/
def handleAnswerSubmission (s : SessionState) (transcript : String)
    (resp : FeedbackResponse) : SessionState × List (String × String) :=
  match handleAnswerSubmissionStart s transcript with
  | (s1, none) => (s1, [])
  | (s1, some (q, t)) => (handleAnswerSubmissionResume s1 q t resp, [(q, t)])

/-- Outcome of the synchronous part of handleEndInterview: the state after
it, whether the session exited by navigation, and the summarizer call
issued (with the full history) if any. -/
structure EndStart where
  state : SessionState
  exited : Bool
  summaryCall : Option (List InterviewTurn)
  deriving DecidableEq

/-- The part of handleEndInterview before the await of
generateInterviewSummary: with an empty history and no natural end it
navigates away; otherwise it enters PROCESSING_SUMMARY and calls the
summarizer with the full history. -/
def handleEndInterviewStart (s : SessionState) (isNaturalEnd : Bool) : EndStart :=
  if s.interviewHistory.length = 0 ∧ isNaturalEnd = false then
    { state := s, exited := true, summaryCall := none }
  else
    { state := { s with interviewState := Phase.PROCESSING_SUMMARY },
      exited := false,
      summaryCall := some s.interviewHistory }

/-- The part of handleEndInterview after the summary arrives: store the
stripped summary and complete. -/
def handleEndInterviewResume (s : SessionState) (finalSummary : String) : SessionState :=
  { s with summary := stripEmphasis finalSummary, interviewState := Phase.COMPLETED }

/-- Result of handleNextQuestion: either the promoted state or the
end-interview path with its natural-end flag. -/
inductive NextQuestionResult where
  | advanced (s : SessionState)
  | endedInterview (isNaturalEnd : Bool) (r : EndStart)
  deriving DecidableEq

/-- handleNextQuestion: stagedNextQuestion is tested for JavaScript
truthiness, so null and the empty string take the else branch. A truthy
staged question is promoted to currentQuestion while feedback, the
transcript and the staged question are cleared; otherwise
handleEndInterview runs with isNaturalEnd set. -/
def handleNextQuestion (s : SessionState) : NextQuestionResult :=
  match s.stagedNextQuestion with
  | some q =>
      if q = "" then
        NextQuestionResult.endedInterview true (handleEndInterviewStart s true)
      else
        NextQuestionResult.advanced
          { s with currentQuestion := q, feedback := "", userTranscript := "",
                   stagedNextQuestion := none, interviewState := Phase.AWAITING_ANSWER }
  | none => NextQuestionResult.endedInterview true (handleEndInterviewStart s true)

/-- recognition.onend: back to AWAITING_ANSWER only if still LISTENING. -/
def onCaptureEnd (p : Phase) : Phase :=
  if p = Phase.LISTENING then Phase.AWAITING_ANSWER else p

/-- An asynchronous collaborator call in flight. -/
inductive Pending where
  | none
  | openingCall
  | feedbackCall (question transcript : String)
  | summaryCall (turns : List InterviewTurn)
  deriving DecidableEq

/-- Full machine state: the React state, the call in flight, and whether
the session exited by navigation. -/
structure MachineState where
  session : SessionState
  pending : Pending
  exited : Bool
  deriving DecidableEq

/-- Events of the session: the mount effect, user actions on the controls
rendered in the current phase, speech recognition callbacks, and
collaborator responses. captureResult and captureError can only be raised
by an active capture, hence while LISTENING; captureEnd may arrive after
the state has moved on (the code guards exactly this callback). -/
inductive Event where
  | startSession
  | openingResponse (question : String)
  | toggleListen
  | captureResult (transcript : String)
  | captureEnd
  | captureError
  | feedbackResponse (resp : FeedbackResponse)
  | summaryResponse (text : String)
  | nextQuestionClick
  | endInterviewClick
  deriving DecidableEq

/-- The initial React state of the screen. -/
def initState : MachineState :=
  { session := { interviewState := Phase.STARTING, currentQuestion := "",
                 stagedNextQuestion := none, userTranscript := "", feedback := "",
                 interviewHistory := [], summary := "" },
    pending := Pending.none, exited := false }

/-- Interpret the outcome of the synchronous part of handleEndInterview as
a machine transition. -/
def applyEnd (m : MachineState) (r : EndStart) : MachineState :=
  match r.summaryCall with
  | some h => { m with session := r.state, pending := Pending.summaryCall h }
  | none => { m with session := r.state, exited := r.exited }

/-- One machine step; none when the event is not enabled, that is its
control is not rendered in the current phase or no matching call is in
flight. -/
def step (m : MachineState) (e : Event) : Option MachineState :=
  if m.exited then none else
  match e with
  | Event.startSession =>
      if m.session.interviewState = Phase.STARTING then
        some { m with session := { m.session with interviewState := Phase.PROCESSING },
                      pending := Pending.openingCall }
      else none
  | Event.openingResponse q =>
      match m.pending with
      | Pending.openingCall =>
          some { m with session := { m.session with
                           currentQuestion := stripEmphasis q,
                           interviewState := Phase.AWAITING_ANSWER },
                        pending := Pending.none }
      | _ => none
  | Event.toggleListen =>
      match m.session.interviewState with
      | Phase.AWAITING_ANSWER =>
          some { m with session := { m.session with interviewState := Phase.LISTENING,
                                                    userTranscript := "" } }
      | Phase.LISTENING => some m
      | _ => none
  | Event.captureResult t =>
      if m.session.interviewState = Phase.LISTENING then
        match handleAnswerSubmissionStart { m.session with userTranscript := t } t with
        | (s1, none) => some { m with session := s1 }
        | (s1, some (q, tr)) =>
            some { m with session := s1, pending := Pending.feedbackCall q tr }
      else none
  | Event.captureEnd =>
      some { m with session := { m.session with
               interviewState := onCaptureEnd m.session.interviewState } }
  | Event.captureError =>
      if m.session.interviewState = Phase.LISTENING then
        some { m with session := { m.session with interviewState := Phase.AWAITING_ANSWER } }
      else none
  | Event.feedbackResponse resp =>
      match m.pending with
      | Pending.feedbackCall q t =>
          some { m with session := handleAnswerSubmissionResume m.session q t resp,
                        pending := Pending.none }
      | _ => none
  | Event.summaryResponse text =>
      match m.pending with
      | Pending.summaryCall _ =>
          some { m with session := handleEndInterviewResume m.session text,
                        pending := Pending.none }
      | _ => none
  | Event.nextQuestionClick =>
      if m.session.interviewState = Phase.DISPLAYING_FEEDBACK then
        match handleNextQuestion m.session with
        | NextQuestionResult.advanced s1 => some { m with session := s1 }
        | NextQuestionResult.endedInterview _ r => some (applyEnd m r)
      else none
  | Event.endInterviewClick =>
      if m.session.interviewState = Phase.DISPLAYING_FEEDBACK then
        some (applyEnd m (handleEndInterviewStart m.session false))
      else none

/-- Run a sequence of events from a state. -/
def runFrom (m : MachineState) : List Event → Option MachineState
  | [] => some m
  | e :: rest => (step m e).bind (fun m1 => runFrom m1 rest)

/-- Run a sequence of events from the initial state. -/
def run (evs : List Event) : Option MachineState :=
  runFrom initState evs

/-- The two UI languages of SettingsProvider; named Language in the source,
renamed here because Language is taken by the ambient library. -/
inductive UiLanguage where
  | English
  | Tamil
  deriving DecidableEq

/-- The translation cache, a nested record keyed by text then language,
modelled as a curried lookup. -/
abbrev TranslationCache := String → UiLanguage → Option String

/-- Store a translation under (text, language). -/
def cacheInsert (cache : TranslationCache) (text : String) (language : UiLanguage)
    (translated : String) : TranslationCache :=
  fun t l => if t = text ∧ l = language then some translated else cache t l

/-- The empty cache. -/
def emptyCache : TranslationCache := fun _ _ => none

/-- translate of SettingsProvider (renamed, translate is taken by the
ambient library): the result, the updated cache, and the number of
translateText collaborator calls made. The hit test mirrors the JavaScript
truthiness check on the cached entry, so a cached empty string counts as a
miss. -/
def translateCached (language : UiLanguage) (cache : TranslationCache) (text : String)
    (translateText : String → UiLanguage → String) :
    String × TranslationCache × Nat :=
  if language = UiLanguage.English then
    (text, cache, 0)
  else
    match cache text language with
    | some cached =>
        if cached = "" then
          let translated := translateText text language
          (translated, cacheInsert cache text language translated, 1)
        else
          (cached, cache, 0)
    | none =>
        let translated := translateText text language
        (translated, cacheInsert cache text language translated, 1)

/-- The fields of SpeechSynthesisVoice the code reads. -/
structure Voice where
  voiceURI : String
  lang : String
  default : Bool
  deriving DecidableEq

/-- The voice registry state of SettingsProvider. -/
structure VoiceState where
  availableVoices : List Voice
  selectedVoiceURI : Option String
  deriving DecidableEq

/-- loadVoices of SettingsProvider. capturedSelectedVoiceURI is the value
of selectedVoiceURI seen by the closure; because the registering effect has
an empty dependency array, every onvoiceschanged invocation sees the value
of the mount render, which is none. -/
def loadVoices (capturedSelectedVoiceURI : Option String)
    (platformVoices : List Voice) (st : VoiceState) : VoiceState :=
  let voices := platformVoices.filter (fun v => jsStartsWith v.lang "en")
  let st1 := { st with availableVoices := voices }
  if (capturedSelectedVoiceURI = none ∨ capturedSelectedVoiceURI = some "") ∧
      0 < voices.length then
    match voices.find? (fun v => v.default) with
    | some defaultVoice => { st1 with selectedVoiceURI := some defaultVoice.voiceURI }
    | none => { st1 with selectedVoiceURI := voices.head?.map (fun v => v.voiceURI) }
  else st1

/-- Events of the voice registry: a platform voice-list change, which runs
loadVoices through the stale mount-time closure, and a user selection. -/
inductive VoiceEvent where
  | voicesChanged (platformVoices : List Voice)
  | userSelect (uri : String)
  deriving DecidableEq

/-- The initial registry state. -/
def initVoiceState : VoiceState := { availableVoices := [], selectedVoiceURI := none }

/-- One registry transition. -/
def voiceStep (st : VoiceState) : VoiceEvent → VoiceState
  | VoiceEvent.voicesChanged pv => loadVoices none pv st
  | VoiceEvent.userSelect uri => { st with selectedVoiceURI := some uri }

/-- The registry after a sequence of events from mount. -/
def voiceRun (evs : List VoiceEvent) : VoiceState :=
  evs.foldl voiceStep initVoiceState

/-- The dependency array of the speak effect, one entry per render:
currentQuestion, interviewState, and the identity of the speakText
callback. speakText is a useCallback keyed on availableVoices and
selectedVoiceURI, so it is recreated whenever the voice list or the
selected voice changes; only identity equality between consecutive renders
matters to the effect, so the identity is abstracted as a number. -/
structure RenderDeps where
  currentQuestion : String
  interviewState : Phase
  speakTextId : Nat
  deriving DecidableEq

/-- The guard inside the effect body: currentQuestion truthy and phase
AWAITING_ANSWER. -/
def speakGuard (d : RenderDeps) : Bool :=
  if d.currentQuestion = "" then false
  else if d.interviewState = Phase.AWAITING_ANSWER then true
  else false

/-- React effect semantics over the sequence of rendered dependency
triples: the body runs after a render whose dependency triple differs from
the previous render (and after the first render); when the guard holds it
speaks the current question. Returns the list of speech invocations in
order. -/
def speakRun (prev : Option RenderDeps) : List RenderDeps → List String
  | [] => []
  | d :: rest =>
      (if some d ≠ prev ∧ speakGuard d = true then [d.currentQuestion] else []) ++
        speakRun (some d) rest

/-- Speech invocations over a full render trace starting at mount. -/
def speakCalls (trace : List RenderDeps) : List String :=
  speakRun none trace

/-- The dependency triple of the last render in the list, prev if none. -/
def lastDeps (prev : Option RenderDeps) : List RenderDeps → Option RenderDeps
  | [] => prev
  | d :: rest => lastDeps (some d) rest

/-- Claim C1: for every transcript that is not empty or whitespace-only,
answer submission moves the machine to PROCESSING, issues exactly one
feedback collaborator call with (currentQuestion, transcript); on response
it appends exactly one InterviewTurn with the current question, the raw
transcript and the asterisk-stripped feedback, so the history grows by
exactly one at its end, preserving submission order; it stores the
asterisk-stripped next question (cleanedNext, possibly absent) as
stagedNextQuestion and transitions to DISPLAYING_FEEDBACK. -/
theorem claim_C1_submission_success (s : SessionState) (t : String)
    (resp : FeedbackResponse) (h : ¬ jsTrim t = "") :
    handleAnswerSubmissionStart s t =
      ({ s with interviewState := Phase.PROCESSING }, some (s.currentQuestion, t)) ∧
    (handleAnswerSubmission s t resp).2 = [(s.currentQuestion, t)] ∧
    (handleAnswerSubmission s t resp).1.interviewState = Phase.DISPLAYING_FEEDBACK ∧
    (handleAnswerSubmission s t resp).1.interviewHistory =
      s.interviewHistory ++
        [{ question := s.currentQuestion, answer := t,
           feedback := stripEmphasis resp.feedback }] ∧
    (handleAnswerSubmission s t resp).1.interviewHistory.length =
      s.interviewHistory.length + 1 ∧
    (handleAnswerSubmission s t resp).1.stagedNextQuestion = cleanedNext resp.nextQuestion := by
  simp [handleAnswerSubmission, handleAnswerSubmissionStart, handleAnswerSubmissionResume, h]

/-- A concrete awaiting state used by the witnesses. -/
def sessionW : SessionState :=
  { interviewState := Phase.AWAITING_ANSWER,
    currentQuestion := "Tell me about a time you led a team.",
    stagedNextQuestion := none, userTranscript := "", feedback := "",
    interviewHistory := [], summary := "" }

/-- A concrete feedback response used by the witnesses. -/
def respW : FeedbackResponse :=
  { feedback := "Good *example*.", nextQuestion := some "What was the outcome?" }

/-- Witness for claim C1 at a concrete state, transcript and response. -/
theorem claim_C1_witness :
    handleAnswerSubmissionStart sessionW "I led a project" =
      ({ sessionW with interviewState := Phase.PROCESSING },
       some (sessionW.currentQuestion, "I led a project")) ∧
    (handleAnswerSubmission sessionW "I led a project" respW).2 =
      [(sessionW.currentQuestion, "I led a project")] ∧
    (handleAnswerSubmission sessionW "I led a project" respW).1.interviewState =
      Phase.DISPLAYING_FEEDBACK ∧
    (handleAnswerSubmission sessionW "I led a project" respW).1.interviewHistory =
      sessionW.interviewHistory ++
        [{ question := sessionW.currentQuestion, answer := "I led a project",
           feedback := stripEmphasis respW.feedback }] ∧
    (handleAnswerSubmission sessionW "I led a project" respW).1.interviewHistory.length =
      sessionW.interviewHistory.length + 1 ∧
    (handleAnswerSubmission sessionW "I led a project" respW).1.stagedNextQuestion =
      cleanedNext respW.nextQuestion :=
  claim_C1_submission_success sessionW "I led a project" respW (by decide)

/-- Claim C2: a transcript that is empty or whitespace-only sends the
machine back to AWAITING_ANSWER, issues no feedback collaborator call, and
leaves the history unchanged. -/
theorem claim_C2_empty_transcript (s : SessionState) (t : String)
    (resp : FeedbackResponse) (h : jsTrim t = "") :
    handleAnswerSubmission s t resp =
      ({ s with interviewState := Phase.AWAITING_ANSWER }, []) ∧
    (handleAnswerSubmission s t resp).1.interviewHistory = s.interviewHistory := by
  simp [handleAnswerSubmission, handleAnswerSubmissionStart, h]

/-- Witness for claim C2 at a whitespace transcript. -/
theorem claim_C2_witness :
    handleAnswerSubmission sessionW "   " respW =
      ({ sessionW with interviewState := Phase.AWAITING_ANSWER }, []) ∧
    (handleAnswerSubmission sessionW "   " respW).1.interviewHistory =
      sessionW.interviewHistory :=
  claim_C2_empty_transcript sessionW "   " respW (by decide)

/-- The event sequence behind the C3 counterexample: the feedback response
carries the next question, a single asterisk, whose stripped form is the
empty string. -/
def c3CounterEvents : List Event :=
  [Event.startSession, Event.openingResponse "Q1", Event.toggleListen,
   Event.captureResult "answer",
   Event.feedbackResponse { feedback := "fb", nextQuestion := some "*" }]

/-- The reachable session state with a present but empty staged question. -/
def c3State : SessionState :=
  { interviewState := Phase.DISPLAYING_FEEDBACK, currentQuestion := "Q1",
    stagedNextQuestion := some "", userTranscript := "answer", feedback := "fb",
    interviewHistory := [{ question := "Q1", answer := "answer", feedback := "fb" }],
    summary := "" }

/-- Counterexample to claim C3 as stated: in the reachable state c3State
the staged next question is present (the collaborator returned the next
question, a lone asterisk, which strips to the empty string), yet the
advance does not promote it to currentQuestion and does not transition to
AWAITING_ANSWER; the JavaScript truthiness test sends it down the
natural-end path instead. -/
theorem claim_C3_counterexample :
    run c3CounterEvents =
      some { session := c3State, pending := Pending.none, exited := false } ∧
    c3State.stagedNextQuestion.isSome = true ∧
    handleNextQuestion c3State =
      NextQuestionResult.endedInterview true
        { state := { c3State with interviewState := Phase.PROCESSING_SUMMARY },
          exited := false, summaryCall := some c3State.interviewHistory } :=
  ⟨by decide, by decide, by decide⟩

/-- Claim C3 (amended): from DISPLAYING_FEEDBACK, if stagedNextQuestion is
present and non-empty, it becomes currentQuestion while feedback,
userTranscript and stagedNextQuestion are all cleared and the machine
transitions to AWAITING_ANSWER; if it is absent or empty, the advance
triggers the end-interview path with the natural-end flag set. -/
theorem claim_C3_advance_amended (s : SessionState) (q : String) :
    (s.stagedNextQuestion = some q → ¬ q = "" →
       handleNextQuestion s =
         NextQuestionResult.advanced
           { s with currentQuestion := q, feedback := "", userTranscript := "",
                    stagedNextQuestion := none, interviewState := Phase.AWAITING_ANSWER }) ∧
    (s.stagedNextQuestion = none ∨ s.stagedNextQuestion = some "" →
       handleNextQuestion s =
         NextQuestionResult.endedInterview true (handleEndInterviewStart s true)) := by
  constructor
  · intro hq hne
    simp [handleNextQuestion, hq, hne]
  · rintro (hq | hq) <;> simp [handleNextQuestion, hq]

/-- A concrete feedback-displaying state with a staged question. -/
def sessionA : SessionState :=
  { sessionW with
    interviewState := Phase.DISPLAYING_FEEDBACK,
    stagedNextQuestion := some "What was the outcome?",
    feedback := "Good example.", userTranscript := "I led a project",
    interviewHistory := [{ question := sessionW.currentQuestion,
                           answer := "I led a project",
                           feedback := "Good example." }] }

/-- The same state with no staged question. -/
def sessionB : SessionState := { sessionA with stagedNextQuestion := none }

/-- Witness for claim C3 (amended) at concrete states. -/
theorem claim_C3_witness :
    handleNextQuestion sessionA =
      NextQuestionResult.advanced
        { sessionA with currentQuestion := "What was the outcome?", feedback := "",
                        userTranscript := "", stagedNextQuestion := none,
                        interviewState := Phase.AWAITING_ANSWER } ∧
    handleNextQuestion sessionB =
      NextQuestionResult.endedInterview true (handleEndInterviewStart sessionB true) :=
  ⟨(claim_C3_advance_amended sessionA "What was the outcome?").1 rfl (by decide),
   (claim_C3_advance_amended sessionB "").2 (Or.inl rfl)⟩

/-- Claim C4: invoked with an empty history and the natural-end flag
false, end-interview issues no summarizer call and exits the session
without entering PROCESSING_SUMMARY; otherwise it transitions to
PROCESSING_SUMMARY, calls the summarizer with the full history, stores the
asterisk-stripped result as summary, and transitions to COMPLETED. -/
theorem claim_C4_end_interview (s : SessionState) (isNaturalEnd : Bool) (resp : String) :
    (s.interviewHistory.length = 0 ∧ isNaturalEnd = false →
       handleEndInterviewStart s isNaturalEnd =
         { state := s, exited := true, summaryCall := none }) ∧
    (¬ (s.interviewHistory.length = 0 ∧ isNaturalEnd = false) →
       handleEndInterviewStart s isNaturalEnd =
         { state := { s with interviewState := Phase.PROCESSING_SUMMARY },
           exited := false, summaryCall := some s.interviewHistory } ∧
       handleEndInterviewResume { s with interviewState := Phase.PROCESSING_SUMMARY } resp =
         { s with interviewState := Phase.COMPLETED, summary := stripEmphasis resp }) := by
  constructor
  · intro h
    simp [handleEndInterviewStart, h]
  · intro h
    refine ⟨?_, by simp [handleEndInterviewResume]⟩
    unfold handleEndInterviewStart
    rw [if_neg h]

/-- Witness for claim C4: the empty-history abort at sessionW and the
summarizing path at sessionA. -/
theorem claim_C4_witness :
    handleEndInterviewStart sessionW false =
      { state := sessionW, exited := true, summaryCall := none } ∧
    (handleEndInterviewStart sessionA false =
       { state := { sessionA with interviewState := Phase.PROCESSING_SUMMARY },
         exited := false, summaryCall := some sessionA.interviewHistory } ∧
     handleEndInterviewResume
         { sessionA with interviewState := Phase.PROCESSING_SUMMARY } "Great *job*" =
       { sessionA with interviewState := Phase.COMPLETED,
                       summary := stripEmphasis "Great *job*" }) :=
  ⟨(claim_C4_end_interview sessionW false "x").1 ⟨rfl, rfl⟩,
   (claim_C4_end_interview sessionA false "Great *job*").2 (by decide)⟩

/-- Claim C10: a capture-end event moves the machine back to
AWAITING_ANSWER only when the phase is still LISTENING; in every other
phase the stale event is a no-op that leaves the whole machine state
unchanged. -/
theorem claim_C10_stale_capture_end (m : MachineState) (hex : m.exited = false) :
    (m.session.interviewState = Phase.LISTENING →
       step m Event.captureEnd =
         some { m with session :=
                  { m.session with interviewState := Phase.AWAITING_ANSWER } }) ∧
    (¬ m.session.interviewState = Phase.LISTENING →
       step m Event.captureEnd = some m) := by
  constructor
  · intro h
    simp [step, hex, onCaptureEnd, h]
  · intro h
    obtain ⟨⟨ph, cq, st, ut, fb, hist, su⟩, pend, ex⟩ := m
    simp only at hex h
    subst hex
    simp [step, onCaptureEnd, h]

/-- A concrete listening machine state. -/
def machineL : MachineState :=
  { session := { sessionW with interviewState := Phase.LISTENING },
    pending := Pending.none, exited := false }

/-- A concrete processing machine state with a feedback call in flight. -/
def machineP : MachineState :=
  { session := { sessionA with interviewState := Phase.PROCESSING },
    pending := Pending.feedbackCall "q" "t", exited := false }

/-- Witness for claim C10 at a listening and at a processing state. -/
theorem claim_C10_witness :
    step machineL Event.captureEnd =
      some { machineL with session :=
               { machineL.session with interviewState := Phase.AWAITING_ANSWER } } ∧
    step machineP Event.captureEnd = some machineP :=
  ⟨(claim_C10_stale_capture_end machineL rfl).1 rfl,
   (claim_C10_stale_capture_end machineP rfl).2 (by decide)⟩

/-- Claim C7: when the target language is the base language English,
translate returns the input unchanged, leaves the cache untouched, and
makes zero calls to the translation collaborator. -/
theorem claim_C7_translate_base (cache : TranslationCache) (text : String)
    (translateText : String → UiLanguage → String) :
    translateCached UiLanguage.English cache text translateText = (text, cache, 0) := rfl

/-- Counterexample to claim C8 as stated: when the collaborator returns
the empty string, the cached value fails the truthiness test on the second
identical invocation, so the collaborator is called twice in total rather
than at most once. -/
theorem claim_C8_counterexample :
    (translateCached UiLanguage.Tamil emptyCache "Hello" (fun _ _ => "")).2.2 +
      (translateCached UiLanguage.Tamil
          (translateCached UiLanguage.Tamil emptyCache "Hello" (fun _ _ => "")).2.1
          "Hello" (fun _ _ => "")).2.2 = 2 := by decide

/-- Claim C8 (amended): for a non-base language, provided the collaborator
returns a non-empty translation for the text, two successive identical
invocations call the collaborator at most once in total; the first call
leaves the result stored under (text, language), and the second returns
the same result with zero collaborator calls. A collaborator result that
is the empty string is cached but fails the truthiness test on lookup, so
it would be treated as a miss again. -/
theorem claim_C8_cache_amended (cache : TranslationCache) (x : String)
    (f : String → UiLanguage → String) (lang : UiLanguage)
    (hl : ¬ lang = UiLanguage.English) (hf : ¬ f x lang = "") :
    (translateCached lang cache x f).2.2 +
        (translateCached lang (translateCached lang cache x f).2.1 x f).2.2 ≤ 1 ∧
    (translateCached lang (translateCached lang cache x f).2.1 x f).2.2 = 0 ∧
    (translateCached lang (translateCached lang cache x f).2.1 x f).1 =
      (translateCached lang cache x f).1 ∧
    (translateCached lang cache x f).2.1 x lang =
      some (translateCached lang cache x f).1 := by
  cases hc : cache x lang with
  | none => simp [translateCached, cacheInsert, hl, hc, hf]
  | some v =>
      by_cases hv : v = ""
      · simp [translateCached, cacheInsert, hl, hc, hv, hf]
      · simp [translateCached, cacheInsert, hl, hc, hv, hf]

/-- Witness for claim C8 (amended): an empty cache, the text Hello, and a
collaborator that returns a non-empty translation. -/
theorem claim_C8_witness :
    (translateCached UiLanguage.Tamil emptyCache "Hello" (fun _ _ => "X")).2.2 +
        (translateCached UiLanguage.Tamil
            (translateCached UiLanguage.Tamil emptyCache "Hello" (fun _ _ => "X")).2.1
            "Hello" (fun _ _ => "X")).2.2 ≤ 1 ∧
    (translateCached UiLanguage.Tamil
        (translateCached UiLanguage.Tamil emptyCache "Hello" (fun _ _ => "X")).2.1
        "Hello" (fun _ _ => "X")).2.2 = 0 ∧
    (translateCached UiLanguage.Tamil
        (translateCached UiLanguage.Tamil emptyCache "Hello" (fun _ _ => "X")).2.1
        "Hello" (fun _ _ => "X")).1 =
      (translateCached UiLanguage.Tamil emptyCache "Hello" (fun _ _ => "X")).1 ∧
    (translateCached UiLanguage.Tamil emptyCache "Hello" (fun _ _ => "X")).2.1
        "Hello" UiLanguage.Tamil =
      some (translateCached UiLanguage.Tamil emptyCache "Hello" (fun _ _ => "X")).1 :=
  claim_C8_cache_amended emptyCache "Hello" (fun _ _ => "X") UiLanguage.Tamil
    (by decide) (by decide)

/-- The platform default voice of the C9 scenario. -/
def voiceOne : Voice := { voiceURI := "voice-1", lang := "en-US", default := true }

/-- A second, user-selectable voice of the C9 scenario. -/
def voiceTwo : Voice := { voiceURI := "voice-2", lang := "en-GB", default := false }

/-- Claim C9 names the intended policy, but the code has a stale-closure
bug: the effect that registers loadVoices has an empty dependency array,
so the onvoiceschanged handler forever reads the mount-time selection,
none. The run below shows the default policy choosing the platform default
on the first load, the user then selecting voice-2, and a subsequent
voice-list refresh with the same voices overwriting the user selection
back to voice-1, contradicting the never-overwritten part of the claim. -/
theorem claim_C9_stale_selection_bug :
    voiceRun [VoiceEvent.voicesChanged [voiceOne, voiceTwo]] =
      { availableVoices := [voiceOne, voiceTwo], selectedVoiceURI := some "voice-1" } ∧
    voiceRun [VoiceEvent.voicesChanged [voiceOne, voiceTwo],
              VoiceEvent.userSelect "voice-2"] =
      { availableVoices := [voiceOne, voiceTwo], selectedVoiceURI := some "voice-2" } ∧
    voiceRun [VoiceEvent.voicesChanged [voiceOne, voiceTwo],
              VoiceEvent.userSelect "voice-2",
              VoiceEvent.voicesChanged [voiceOne, voiceTwo]] =
      { availableVoices := [voiceOne, voiceTwo], selectedVoiceURI := some "voice-1" } :=
  ⟨by decide, by decide, by decide⟩

/-- Counterexample to claim C6 as stated, on two traces with the same
non-empty question throughout. First trace: leaving AWAITING_ANSWER for
LISTENING and returning (the microphone toggle followed by a capture-end
event) changes the dependency triple twice, so the question is spoken a
second time. Second trace: the (question, phase) pair never changes, yet
the speakText callback changes identity (the voice list or the selected
voice changed, so its useCallback is recreated) and the question is again
spoken twice. So the invocation is neither exactly once per question nor
keyed to the (question, phase) pair. -/
theorem claim_C6_counterexample :
    speakCalls [{ currentQuestion := "Q", interviewState := Phase.AWAITING_ANSWER,
                  speakTextId := 0 },
                { currentQuestion := "Q", interviewState := Phase.LISTENING,
                  speakTextId := 0 },
                { currentQuestion := "Q", interviewState := Phase.AWAITING_ANSWER,
                  speakTextId := 0 }] = ["Q", "Q"] ∧
    speakCalls [{ currentQuestion := "Q", interviewState := Phase.AWAITING_ANSWER,
                  speakTextId := 0 },
                { currentQuestion := "Q", interviewState := Phase.AWAITING_ANSWER,
                  speakTextId := 1 }] = ["Q", "Q"] :=
  ⟨by decide, by decide⟩

/-- How the effect extends when one render is appended to a trace: it
fires exactly when the dependency triple changed from the last render and
the guard holds. -/
theorem speakRun_append (t : List RenderDeps) (d : RenderDeps) :
    ∀ prev, speakRun prev (t ++ [d]) =
      speakRun prev t ++
        (if some d ≠ lastDeps prev t ∧ speakGuard d = true then [d.currentQuestion]
         else []) := by
  induction t with
  | nil =>
      intro prev
      simp [speakRun, lastDeps]
  | cons a rest ih =>
      intro prev
      simp only [List.cons_append, speakRun, List.append_eq, lastDeps, ih (some a),
        List.append_assoc]

/-- Claim C6 (amended): the speech-output collaborator is invoked with the
current question exactly when a render changes the dependency triple
(question, phase, speakText identity) while the question is non-empty and
the phase is AWAITING_ANSWER; appending a render that leaves the whole
triple unchanged adds no invocation, while appending a guarded render that
changes any component always adds one. So the question is re-spoken both
when AWAITING_ANSWER is re-entered with the same question and when the
speakText callback is recreated (a voice-list or voice-selection change)
while question and phase stay the same; the invocation is not exactly once
per question. -/
theorem claim_C6_speak_effect_amended (t : List RenderDeps) (d : RenderDeps) :
    speakCalls (t ++ [d]) =
      speakCalls t ++
        (if some d ≠ lastDeps none t ∧ speakGuard d = true then [d.currentQuestion]
         else []) :=
  speakRun_append t d none

/-- Phases in which a staged next question may be present under the
amended invariant. -/
def phaseAllowsStaged (p : Phase) : Prop :=
  p = Phase.DISPLAYING_FEEDBACK ∨ p = Phase.PROCESSING_SUMMARY ∨ p = Phase.COMPLETED

/-- Auxiliary invariant tying a call in flight to the phase, staged
question and summary it was issued from. -/
def pendingOk (p : Pending) (s : SessionState) : Prop :=
  match p with
  | Pending.none => True
  | Pending.openingCall =>
      s.interviewState = Phase.PROCESSING ∧
      s.stagedNextQuestion = none ∧ s.summary = ""
  | Pending.feedbackCall _ _ =>
      s.interviewState = Phase.PROCESSING ∧ s.summary = ""
  | Pending.summaryCall _ =>
      s.interviewState = Phase.PROCESSING_SUMMARY ∧ s.summary = ""

/-- The inductive session invariant: the two public clauses of claim C5
as amended, strengthened with bookkeeping about STARTING and about calls
in flight. -/
def SessionInv (m : MachineState) : Prop :=
  (m.session.stagedNextQuestion.isSome = true →
     phaseAllowsStaged m.session.interviewState) ∧
  (¬ m.session.summary = "" → m.session.interviewState = Phase.COMPLETED) ∧
  (m.session.interviewState = Phase.STARTING →
     m.session.stagedNextQuestion = none ∧ m.session.summary = "" ∧
     m.pending = Pending.none) ∧
  pendingOk m.pending m.session

/-- Under the invariant, a phase outside phaseAllowsStaged has no staged
question. -/
theorem staged_none_of_inv (m : MachineState) (hInv : SessionInv m)
    (h : ¬ phaseAllowsStaged m.session.interviewState) :
    m.session.stagedNextQuestion = none := by
  cases hst : m.session.stagedNextQuestion with
  | none => rfl
  | some q => exact absurd (hInv.1 (by simp [hst])) h

/-- Under the invariant, the summary is empty outside COMPLETED. -/
theorem summary_empty_of_inv (m : MachineState) (hInv : SessionInv m)
    (h : ¬ m.session.interviewState = Phase.COMPLETED) :
    m.session.summary = "" := by
  by_contra hs
  exact h (hInv.2.1 hs)

/-- Under the invariant, no call is in flight outside PROCESSING and
PROCESSING_SUMMARY. -/
theorem pending_none_of_inv (m : MachineState) (hInv : SessionInv m)
    (h1 : ¬ m.session.interviewState = Phase.PROCESSING)
    (h2 : ¬ m.session.interviewState = Phase.PROCESSING_SUMMARY) :
    m.pending = Pending.none := by
  have hp := hInv.2.2.2
  cases hpd : m.pending with
  | none => rfl
  | openingCall => rw [hpd] at hp; exact absurd hp.1 h1
  | feedbackCall q t => rw [hpd] at hp; exact absurd hp.1 h1
  | summaryCall ts => rw [hpd] at hp; exact absurd hp.1 h2

/-- Every enabled machine step preserves the session invariant. -/
theorem step_preserves_Inv (m m1 : MachineState) (e : Event)
    (hInv : SessionInv m) (h : step m e = some m1) : SessionInv m1 := by
  by_cases hex : m.exited = true
  · simp [step, hex] at h
  cases e with
  | startSession =>
      by_cases hph : m.session.interviewState = Phase.STARTING
      · obtain ⟨hA, hB, hC⟩ := hInv.2.2.1 hph
        simp [step, hex, hph] at h
        subst h
        exact ⟨by simp [hA], by simp [hB], by simp, by simp [pendingOk, hB, hA]⟩
      · simp [step, hex, hph] at h
  | openingResponse q =>
      have hp := hInv.2.2.2
      cases hpd : m.pending with
      | openingCall =>
          rw [hpd] at hp
          simp only [pendingOk] at hp
          obtain ⟨hph, hA, hB⟩ := hp
          simp [step, hex, hpd] at h
          subst h
          exact ⟨by simp [hA], by simp [hB], by simp, by simp [pendingOk]⟩
      | none => simp [step, hex, hpd] at h
      | feedbackCall q t => simp [step, hex, hpd] at h
      | summaryCall ts => simp [step, hex, hpd] at h
  | toggleListen =>
      cases hph : m.session.interviewState with
      | AWAITING_ANSWER =>
          have hA := staged_none_of_inv m hInv (by simp [phaseAllowsStaged, hph])
          have hB := summary_empty_of_inv m hInv (by simp [hph])
          have hC := pending_none_of_inv m hInv (by simp [hph]) (by simp [hph])
          simp [step, hex, hph] at h
          subst h
          exact ⟨by simp [hA], by simp [hB], by simp, by simp [pendingOk, hC]⟩
      | LISTENING =>
          simp [step, hex, hph] at h
          subst h
          exact hInv
      | STARTING => simp [step, hex, hph] at h
      | PROCESSING => simp [step, hex, hph] at h
      | DISPLAYING_FEEDBACK => simp [step, hex, hph] at h
      | PROCESSING_SUMMARY => simp [step, hex, hph] at h
      | COMPLETED => simp [step, hex, hph] at h
  | captureResult t =>
      by_cases hph : m.session.interviewState = Phase.LISTENING
      · have hA := staged_none_of_inv m hInv (by simp [phaseAllowsStaged, hph])
        have hB := summary_empty_of_inv m hInv (by simp [hph])
        have hC := pending_none_of_inv m hInv (by simp [hph]) (by simp [hph])
        by_cases htr : jsTrim t = ""
        · simp [step, hex, hph, handleAnswerSubmissionStart, htr] at h
          subst h
          exact ⟨by simp [hA], by simp [hB], by simp, by simp [pendingOk, hC]⟩
        · simp [step, hex, hph, handleAnswerSubmissionStart, htr] at h
          subst h
          exact ⟨by simp [hA], by simp [hB], by simp, by simp [pendingOk, hB]⟩
      · simp [step, hex, hph] at h
  | captureEnd =>
      by_cases hph : m.session.interviewState = Phase.LISTENING
      · have hA := staged_none_of_inv m hInv (by simp [phaseAllowsStaged, hph])
        have hB := summary_empty_of_inv m hInv (by simp [hph])
        have hC := pending_none_of_inv m hInv (by simp [hph]) (by simp [hph])
        simp [step, hex, onCaptureEnd, hph] at h
        subst h
        exact ⟨by simp [hA], by simp [hB], by simp, by simp [pendingOk, hC]⟩
      · simp [step, hex, onCaptureEnd, hph] at h
        subst h
        exact hInv
  | captureError =>
      by_cases hph : m.session.interviewState = Phase.LISTENING
      · have hA := staged_none_of_inv m hInv (by simp [phaseAllowsStaged, hph])
        have hB := summary_empty_of_inv m hInv (by simp [hph])
        have hC := pending_none_of_inv m hInv (by simp [hph]) (by simp [hph])
        simp [step, hex, hph] at h
        subst h
        exact ⟨by simp [hA], by simp [hB], by simp, by simp [pendingOk, hC]⟩
      · simp [step, hex, hph] at h
  | feedbackResponse resp =>
      have hp := hInv.2.2.2
      cases hpd : m.pending with
      | feedbackCall q t =>
          rw [hpd] at hp
          simp only [pendingOk] at hp
          simp [step, hex, hpd] at h
          subst h
          refine ⟨?_, ?_, ?_, ?_⟩
          · simp [handleAnswerSubmissionResume, phaseAllowsStaged]
          · simp [handleAnswerSubmissionResume, hp.2]
          · simp [handleAnswerSubmissionResume]
          · simp [pendingOk]
      | none => simp [step, hex, hpd] at h
      | openingCall => simp [step, hex, hpd] at h
      | summaryCall ts => simp [step, hex, hpd] at h
  | summaryResponse text =>
      have hp := hInv.2.2.2
      cases hpd : m.pending with
      | summaryCall ts =>
          rw [hpd] at hp
          simp only [pendingOk] at hp
          simp [step, hex, hpd] at h
          subst h
          refine ⟨?_, ?_, ?_, ?_⟩
          · simp [handleEndInterviewResume, phaseAllowsStaged]
          · simp [handleEndInterviewResume]
          · simp [handleEndInterviewResume]
          · simp [pendingOk]
      | none => simp [step, hex, hpd] at h
      | openingCall => simp [step, hex, hpd] at h
      | feedbackCall q t => simp [step, hex, hpd] at h
  | nextQuestionClick =>
      by_cases hph : m.session.interviewState = Phase.DISPLAYING_FEEDBACK
      · have hB := summary_empty_of_inv m hInv (by simp [hph])
        have hC := pending_none_of_inv m hInv (by simp [hph]) (by simp [hph])
        cases hst : m.session.stagedNextQuestion with
        | some q =>
            by_cases hq : q = ""
            · simp [step, hex, hph, handleNextQuestion, hst, hq,
                handleEndInterviewStart, applyEnd] at h
              subst h
              exact ⟨by simp [phaseAllowsStaged], by simp [hB], by simp,
                by simp [pendingOk, hB]⟩
            · simp [step, hex, hph, handleNextQuestion, hst, hq] at h
              subst h
              exact ⟨by simp, by simp [hB], by simp, by simp [pendingOk, hC]⟩
        | none =>
            simp [step, hex, hph, handleNextQuestion, hst,
              handleEndInterviewStart, applyEnd] at h
            subst h
            exact ⟨by simp [phaseAllowsStaged], by simp [hB], by simp,
              by simp [pendingOk, hB]⟩
      · simp [step, hex, hph] at h
  | endInterviewClick =>
      by_cases hph : m.session.interviewState = Phase.DISPLAYING_FEEDBACK
      · have hB := summary_empty_of_inv m hInv (by simp [hph])
        have hC := pending_none_of_inv m hInv (by simp [hph]) (by simp [hph])
        by_cases hh : m.session.interviewHistory.length = 0
        · simp [step, hex, hph, handleEndInterviewStart, hh, applyEnd] at h
          subst h
          exact ⟨hInv.1, hInv.2.1, by simp [hph], by simp [pendingOk, hC]⟩
        · simp [step, hex, hph, handleEndInterviewStart, hh, applyEnd] at h
          subst h
          exact ⟨by simp [phaseAllowsStaged], by simp [hB], by simp,
            by simp [pendingOk, hB]⟩
      · simp [step, hex, hph] at h

/-- The initial state satisfies the invariant. -/
theorem sessionInv_init : SessionInv initState := by
  refine ⟨?_, ?_, ?_, ?_⟩ <;> simp [initState, pendingOk]

/-- Running any event sequence preserves the invariant. -/
theorem runFrom_preserves_Inv (evs : List Event) :
    ∀ (m m1 : MachineState), SessionInv m → runFrom m evs = some m1 → SessionInv m1 := by
  induction evs with
  | nil =>
      intro m m1 hInv hr
      simp [runFrom] at hr
      rwa [← hr]
  | cons e rest ih =>
      intro m m1 hInv hr
      simp only [runFrom] at hr
      cases hs : step m e with
      | none => rw [hs] at hr; simp at hr
      | some m2 =>
          rw [hs] at hr
          simp only [Option.some_bind] at hr
          exact ih m2 m1 (step_preserves_Inv m m2 e hInv hs) hr

/-- Claim C5 (amended): in every reachable session state, a present
stagedNextQuestion implies the phase is DISPLAYING_FEEDBACK,
PROCESSING_SUMMARY or COMPLETED (the two latter arise because ending the
interview from DISPLAYING_FEEDBACK does not clear the staged question),
and a non-empty summary implies the phase is COMPLETED. -/
theorem claim_C5_invariant_amended (evs : List Event) (m : MachineState)
    (h : run evs = some m) :
    (m.session.stagedNextQuestion.isSome = true →
       phaseAllowsStaged m.session.interviewState) ∧
    (¬ m.session.summary = "" → m.session.interviewState = Phase.COMPLETED) := by
  have hInv : SessionInv m := runFrom_preserves_Inv evs initState m sessionInv_init h
  exact ⟨hInv.1, hInv.2.1⟩

/-- The event sequence behind the C5 counterexample: a full turn whose
response stages Q2, then the End Interview button. -/
def c5CounterEvents : List Event :=
  [Event.startSession, Event.openingResponse "Q1", Event.toggleListen,
   Event.captureResult "I led a project",
   Event.feedbackResponse { feedback := "Good", nextQuestion := some "Q2" },
   Event.endInterviewClick]

/-- Counterexample to claim C5 as stated: after ending the interview
from DISPLAYING_FEEDBACK with Q2 staged, the reachable state has phase
PROCESSING_SUMMARY while stagedNextQuestion is still the non-empty Q2, so
a non-empty staged question exists outside DISPLAYING_FEEDBACK. -/
theorem claim_C5_counterexample :
    (run c5CounterEvents).map
        (fun m => (m.session.interviewState, m.session.stagedNextQuestion)) =
      some (Phase.PROCESSING_SUMMARY, some "Q2") ∧
    ¬ Phase.PROCESSING_SUMMARY = Phase.DISPLAYING_FEEDBACK :=
  ⟨by decide, by decide⟩

/-- A full interview run reaching COMPLETED, used by the C5 witness. -/
def c5WitnessEvents : List Event :=
  [Event.startSession, Event.openingResponse "Q1", Event.toggleListen,
   Event.captureResult "my answer",
   Event.feedbackResponse { feedback := "fb", nextQuestion := none },
   Event.nextQuestionClick, Event.summaryResponse "Well done"]

/-- The state reached by c5WitnessEvents. -/
def c5WitnessState : MachineState :=
  { session := { interviewState := Phase.COMPLETED, currentQuestion := "Q1",
                 stagedNextQuestion := none, userTranscript := "my answer",
                 feedback := "fb",
                 interviewHistory := [{ question := "Q1", answer := "my answer",
                                        feedback := "fb" }],
                 summary := "Well done" },
    pending := Pending.none, exited := false }

/-- Witness for claim C5 (amended) at the concrete completed run. -/
theorem claim_C5_witness :
    (c5WitnessState.session.stagedNextQuestion.isSome = true →
       phaseAllowsStaged c5WitnessState.session.interviewState) ∧
    (¬ c5WitnessState.session.summary = "" →
       c5WitnessState.session.interviewState = Phase.COMPLETED) :=
  claim_C5_invariant_amended c5WitnessEvents c5WitnessState (by decide)
